import Mathlib

/-!
Shallow embedding of the `komega` package (pkg/envtest/komega/default.go):
a factory of zero-argument probe functions over an external object store.

The package-level state of the Go program (the process-wide `defaultK`
handle, the set of configured store clients, and the Go heap holding the
resource instances the probes mutate in place) is modelled as an explicit
`World` value threaded through every operation.  A Go allocation is an
index into `World.heap` (respectively `World.listHeap` for list
containers), so instance identity (pointer identity) is observable as the
index.  A probe closure is a small structure holding exactly the data the
Go closure captures; invoking the probe is a function from `World` to a
new `World` plus the probe result.

The store client and the `komega` struct methods live outside the sources
at hand and are modelled from the specification where noted.
-/

/-- A namespaced name: the (namespace, name) identity of a resource
(`types.NamespacedName`). -/
structure NamespacedName where
  ns : String
  name : String
deriving DecidableEq, Repr

/-- A concrete resource shape: identity fields plus a main-body field
(`replicas`, the spec field mutated by updates) and a status field
(`status`, written only through the status sub-resource channel). -/
structure Resource where
  name : String
  ns : String
  replicas : Nat
  status : Nat
deriving DecidableEq, Repr

/-- The zero value of `Resource`, as produced by `new(V)` in Go. -/
def Resource.zero : Resource := { name := "", ns := "", replicas := 0, status := 0 }

/-- The identity fields of a resource instance, read back as a key. -/
def keyOf (r : Resource) : NamespacedName := { ns := r.ns, name := r.name }

/-- Errors returned by the external store. -/
inductive StoreError where
  | notFound : NamespacedName → StoreError
  | other : String → StoreError
deriving DecidableEq, Repr

/-- Modelled from the spec: the external store client (an abstract
key/namespace-addressed object store supporting Get/List/Update/UpdateStatus;
it is an external collaborator, not part of the sources).  Besides the
object map, each operation channel carries an injectable failure so that
arbitrary store errors can be exercised. -/
structure Store where
  objs : List (NamespacedName × Resource)
  getErr : Option StoreError := none
  updateErr : Option StoreError := none
  statusErr : Option StoreError := none
  listErr : Option StoreError := none
deriving DecidableEq, Repr

/-- List options: an optional namespace filter. -/
structure ListOpts where
  nsFilter : Option String := none
deriving DecidableEq, Repr

/-- Modelled from the spec: fetch-single(identity) on the store. -/
def storeGetOp (s : Store) (nn : NamespacedName) : Except StoreError Resource :=
  match s.getErr with
  | some e => .error e
  | none =>
    match s.objs.find? (fun p => p.1 == nn) with
    | some p => .ok p.2
    | none => .error (.notFound nn)

/-- Modelled from the spec: update-main(object) on the store; writes the
main body of the addressed resource, leaving its status untouched. -/
def storeUpdateOp (s : Store) (r : Resource) : Except StoreError Store :=
  match s.updateErr with
  | some e => .error e
  | none =>
    match s.objs.find? (fun p => p.1 == keyOf r) with
    | none => .error (.notFound (keyOf r))
    | some p =>
      .ok { s with objs := s.objs.map (fun q =>
        if q.1 == keyOf r then (q.1, { r with status := p.2.status }) else q) }

/-- Modelled from the spec: update-status(object) on the store; writes the
status sub-resource of the addressed resource, leaving its main body
untouched. -/
def storeUpdateStatusOp (s : Store) (r : Resource) : Except StoreError Store :=
  match s.statusErr with
  | some e => .error e
  | none =>
    match s.objs.find? (fun p => p.1 == keyOf r) with
    | none => .error (.notFound (keyOf r))
    | some p =>
      .ok { s with objs := s.objs.map (fun q =>
        if q.1 == keyOf r then (q.1, { p.2 with status := r.status }) else q) }

/-- Modelled from the spec: list(filter) on the store. -/
def storeListOp (s : Store) (opts : ListOpts) : Except StoreError (List Resource) :=
  match s.listErr with
  | some e => .error e
  | none =>
    .ok ((s.objs.map Prod.snd).filter (fun r =>
      match opts.nsFilter with
      | none => true
      | some n => r.ns == n))

/-- The process-wide state: the configured store clients (by client id),
the `defaultK.client` handle set by `SetClient` (none while unset), and
the Go heap of single-resource instances and of list containers. -/
structure World where
  stores : List (Nat × Store)
  defaultClient : Option Nat
  heap : List Resource
  listHeap : List (List Resource)
deriving DecidableEq, Repr

/-- The state at process start: no client configured, nothing allocated. -/
def initialWorld : World :=
  { stores := [], defaultClient := none, heap := [], listHeap := [] }

/-- The store behind a client id (an unconfigured id reads as empty). -/
def storeOf (w : World) (c : Nat) : Store :=
  match w.stores.find? (fun p => p.1 == c) with
  | some p => p.2
  | none => { objs := [] }

/-- Replace the store behind a client id after a successful write. -/
def setStore (w : World) (c : Nat) (s : Store) : World :=
  { w with stores := w.stores.map (fun p => if p.1 == c then (p.1, s) else p) }

/-- Allocate a fresh resource instance (Go `new(V)` plus initialization):
returns the new world and the instance id, which is always brand new. -/
def allocObj (w : World) (r : Resource) : World × Nat :=
  ({ w with heap := w.heap ++ [r] }, w.heap.length)

/-- Read a resource instance from the heap. -/
def readObj (w : World) (i : Nat) : Resource := w.heap.getD i Resource.zero

/-- Overwrite a resource instance in place. -/
def writeObj (w : World) (i : Nat) (r : Resource) : World :=
  { w with heap := w.heap.set i r }

/-- Allocate a fresh list container. -/
def allocList (w : World) (l : List Resource) : World × Nat :=
  ({ w with listHeap := w.listHeap ++ [l] }, w.listHeap.length)

/-- Read a list container from the heap. -/
def readList (w : World) (i : Nat) : List Resource := w.listHeap.getD i []

/-- Overwrite a list container in place. -/
def writeList (w : World) (i : Nat) (l : List Resource) : World :=
  { w with listHeap := w.listHeap.set i l }

/-- A zero-valued instance with the identity stamped onto it:
`new(V)` followed by `SetName` and `SetNamespace`. -/
def stampedZero (nn : NamespacedName) : Resource :=
  { Resource.zero with name := nn.name, ns := nn.ns }

/-- The panic message of `checkClient` (modulo punctuation). -/
def panicMsg : String := "Komega client is not set. Use SetClient to set it."

/-- The runtime panic raised when a probe body dereferences a nil client. -/
def nilClientPanic : String := "runtime error: nil client"

/-- The error component of a store operation result. -/
def errOf {α : Type} : Except StoreError α → Option StoreError
  | .ok _ => none
  | .error e => some e

/-- The closure returned by `Get`: it captured the `defaultK` handle of
construction time and the caller-supplied instance. -/
structure GetProbe where
  clientId : Nat
  objId : Nat
deriving DecidableEq, Repr

/-- The closure returned by `List`: construction-time client, the
caller-supplied list container and the list options. -/
structure ListProbe where
  clientId : Nat
  listId : Nat
  opts : ListOpts
deriving DecidableEq, Repr

/-- The closure returned by `Update` and `UpdateStatus`: construction-time
client, the single instance allocated at construction, the identity the
update is keyed by, and the mutator. -/
structure UpdateProbe where
  clientId : Nat
  objId : Nat
  nn : NamespacedName
  f : Resource → Resource

/-- The closure returned by `Object`: it captured only the identity; the
`defaultK` handle is read again at each invocation. -/
structure ObjectProbe where
  nn : NamespacedName
deriving DecidableEq, Repr

/-- The closure returned by `ObjectList`: it captured only the options. -/
structure ObjectListProbe where
  opts : ListOpts
deriving DecidableEq, Repr

/-- Modelled from the spec: one invocation of a fetch probe (the
`komega.Get` method body is outside the sources at hand): fetch the
resource identified by the object identity fields directly into the
instance, mutating it in place, and return the store error. -/
def invokeGetProbe (p : GetProbe) (w : World) : World × Option StoreError :=
  match storeGetOp (storeOf w p.clientId) (keyOf (readObj w p.objId)) with
  | .ok r => (writeObj w p.objId r, none)
  | .error e => (w, some e)

/-- Modelled from the spec: one invocation of a list probe (the
`komega.List` method body is outside the sources at hand): run the
filtered list query into the container, return the store error. -/
def invokeListProbe (p : ListProbe) (w : World) : World × Option StoreError :=
  match storeListOp (storeOf w p.clientId) p.opts with
  | .ok items => (writeList w p.listId items, none)
  | .error e => (w, some e)

/-- Modelled from the spec: one invocation of an update probe (the
`komega.Update` and `komega.UpdateStatus` method bodies are outside the
sources at hand): (a) fetch the current state for the identity into the
instance, (b) apply the mutator to the instance, (c) write the instance
back through the given channel, (d) return the error of either step.  The
result also carries an application log: one entry per mutator application,
recording the instance id it was applied to and the instance value the
mutator saw. -/
def invokeUpdateCore (writeOp : Store → Resource → Except StoreError Store)
    (p : UpdateProbe) (w : World) : World × Option StoreError × List (Nat × Resource) :=
  match storeGetOp (storeOf w p.clientId) p.nn with
  | .error e => (w, some e, [])
  | .ok r =>
    let w2 := writeObj (writeObj w p.objId r) p.objId (p.f r)
    match writeOp (storeOf w2 p.clientId) (p.f r) with
    | .error e => (w2, some e, [(p.objId, r)])
    | .ok s2 => (setStore w2 p.clientId s2, none, [(p.objId, r)])

/-- One invocation of an `Update` probe (main-body channel). -/
def invokeUpdateProbe (p : UpdateProbe) (w : World) :
    World × Option StoreError × List (Nat × Resource) :=
  invokeUpdateCore storeUpdateOp p w

/-- One invocation of an `UpdateStatus` probe (status channel). -/
def invokeUpdateStatusProbe (p : UpdateProbe) (w : World) :
    World × Option StoreError × List (Nat × Resource) :=
  invokeUpdateCore storeUpdateStatusOp p w

/-- One invocation of an `Object` probe: allocate a fresh zero-valued
instance, stamp the identity, then fetch into it through the `defaultK`
handle as it stands at invocation time (the closure reads the package
variable again on every call).  A nil handle at invocation time is a
runtime panic, surfaced as `.error`. -/
def invokeObjectProbe (p : ObjectProbe) (w : World) :
    Except String (World × Nat × Option StoreError) :=
  let a := allocObj w (stampedZero p.nn)
  match a.1.defaultClient with
  | none => .error nilClientPanic
  | some c =>
    match storeGetOp (storeOf a.1 c) p.nn with
    | .ok r => .ok (writeObj a.1 a.2 r, a.2, none)
    | .error e => .ok (a.1, a.2, some e)

/-- One invocation of an `ObjectList` probe: allocate a fresh list
container, then run the filtered list query into it through the `defaultK`
handle as it stands at invocation time. -/
def invokeObjectListProbe (p : ObjectListProbe) (w : World) :
    Except String (World × Nat × Option StoreError) :=
  let a := allocList w []
  match a.1.defaultClient with
  | none => .error nilClientPanic
  | some c =>
    match storeListOp (storeOf a.1 c) p.opts with
    | .ok items => .ok (writeList a.1 a.2 items, a.2, none)
    | .error e => .ok (a.1, a.2, some e)

namespace komega

/-- SetClient installs the process-wide store handle by replacing the
package-level `defaultK` with a fresh `komega` value holding `c`. -/
def SetClient (c : Option Nat) (w : World) : World :=
  { w with defaultClient := c }

/-- checkClient: panics (returns the panic message) when the handle is
unset, otherwise passes. -/
def checkClient (w : World) : Option String :=
  match w.defaultClient with
  | none => some panicMsg
  | some _ => none

/-- Get: checkClient, then return the probe produced by the
construction-time `defaultK` over the caller-supplied instance.  An
`.error` result is the checkClient panic. -/
def Get (objId : Nat) (w : World) : Except String (World × GetProbe) :=
  match w.defaultClient with
  | none => .error panicMsg
  | some c => .ok (w, { clientId := c, objId := objId })

/-- List: checkClient, then return the probe produced by the
construction-time `defaultK` over the caller-supplied container. -/
def List (listId : Nat) (opts : ListOpts) (w : World) :
    Except String (World × ListProbe) :=
  match w.defaultClient with
  | none => .error panicMsg
  | some c => .ok (w, { clientId := c, listId := listId, opts := opts })

/-- Update: checkClient, allocate one zero-valued instance, stamp the
identity onto it, and hand it together with the mutator to the
construction-time `defaultK`.  The allocation happens once, at
construction; the returned probe closes over that single instance. -/
def Update (nn : NamespacedName) (f : Resource → Resource) (w : World) :
    Except String (World × UpdateProbe) :=
  match w.defaultClient with
  | none => .error panicMsg
  | some c =>
    let a := allocObj w (stampedZero nn)
    .ok (a.1, { clientId := c, objId := a.2, nn := nn, f := f })

/-- UpdateStatus: identical construction to Update; the probe it returns
is invoked through the status channel. -/
def UpdateStatus (nn : NamespacedName) (f : Resource → Resource) (w : World) :
    Except String (World × UpdateProbe) :=
  match w.defaultClient with
  | none => .error panicMsg
  | some c =>
    let a := allocObj w (stampedZero nn)
    .ok (a.1, { clientId := c, objId := a.2, nn := nn, f := f })

/-- Object: checkClient, then return a closure holding only the identity;
everything else happens per invocation. -/
def Object (nn : NamespacedName) (w : World) : Except String (World × ObjectProbe) :=
  match checkClient w with
  | some m => .error m
  | none => .ok (w, { nn := nn })

/-- ObjectList: checkClient, then return a closure holding only the
options; everything else happens per invocation. -/
def ObjectList (opts : ListOpts) (w : World) :
    Except String (World × ObjectListProbe) :=
  match checkClient w with
  | some m => .error m
  | none => .ok (w, { opts := opts })

end komega

/-! Concrete worlds used by the scenario theorems and witnesses. -/

/-- The identity of the scenario resource: name test in namespace default. -/
def nnTest : NamespacedName := { ns := "default", name := "test" }

/-- The scenario resource: replica count 5. -/
def resTest : Resource := { name := "test", ns := "default", replicas := 5, status := 0 }

/-- A store holding exactly the scenario resource. -/
def storeTest : Store := { objs := [(nnTest, resTest)] }

/-- A world with client 0 configured over `storeTest`. -/
def worldTest : World :=
  { stores := [(0, storeTest)], defaultClient := some 0, heap := [], listHeap := [] }

/-- The identity of a resource missing from the scenario store. -/
def nnMissing : NamespacedName := { ns := "default", name := "missing" }

/-- World after the first successful Object-probe invocation on the
scenario world. -/
def objW1 : World := writeObj (allocObj worldTest (stampedZero nnTest)).1 0 resTest

/-- World after the second successful Object-probe invocation. -/
def objW2 : World := writeObj (allocObj objW1 (stampedZero nnTest)).1 1 resTest

/-- World after the first successful ObjectList-probe invocation. -/
def listV1 : World := writeList (allocList worldTest []).1 0 [resTest]

/-- World after the second successful ObjectList-probe invocation. -/
def listV2 : World := writeList (allocList listV1 []).1 1 [resTest]

/-- A concrete mutator: increment the replica count. -/
def f0 : Resource → Resource := fun r => { r with replicas := r.replicas + 1 }

/-- The world right after constructing the update probe on the scenario
world: the single instance the probe closes over sits in slot 0. -/
def updW0 : World := (allocObj worldTest (stampedZero nnTest)).1

/-- The update probe built by `komega.Update nnTest f0 worldTest`. -/
def p0 : UpdateProbe := { clientId := 0, objId := 0, nn := nnTest, f := f0 }

/-- A world with the scenario store, an allocated stamped instance in
slot 0 and an allocated empty list container in slot 0. -/
def worldFull : World :=
  { stores := [(0, storeTest)], defaultClient := some 0,
    heap := [stampedZero nnTest], listHeap := [[]] }

/-- The error component of an Object/ObjectList probe result (none when
the invocation panicked instead of returning). -/
def probeErr : Except String (World × Nat × Option StoreError) → Option StoreError
  | .ok x => x.2.2
  | .error _ => none

/-- A store whose every channel fails with a distinct injected error. -/
def storeBoom : Store :=
  { objs := [], getErr := some (.other "boom-get"),
    updateErr := some (.other "boom-upd"),
    statusErr := some (.other "boom-status"),
    listErr := some (.other "boom-list") }

/-- A world over `storeBoom` with one instance and one container. -/
def worldBoom : World :=
  { stores := [(0, storeBoom)], defaultClient := some 0,
    heap := [Resource.zero], listHeap := [[]] }

/-- A store holding the scenario resource whose write channels fail. -/
def storeBoom2 : Store :=
  { objs := [(nnTest, resTest)],
    updateErr := some (.other "boom-upd"),
    statusErr := some (.other "boom-status") }

/-- A world over `storeBoom2`. -/
def worldBoom2 : World :=
  { stores := [(0, storeBoom2)], defaultClient := some 0,
    heap := [stampedZero nnTest], listHeap := [] }

/-! Small facts about the heap helpers, shared across the claims. -/

/-- Reading back a freshly allocated instance yields the allocated value. -/
theorem readObj_alloc (w : World) (r : Resource) :
    readObj (allocObj w r).1 (allocObj w r).2 = r := by
  simp [readObj, allocObj, List.getD_eq_getElem?_getD]

/-- Allocation appends: it grows the heap by exactly one slot. -/
theorem heap_length_alloc (w : World) (r : Resource) :
    (allocObj w r).1.heap.length = w.heap.length + 1 := by
  simp [allocObj]

/-- Writing an instance does not change the heap size. -/
theorem heap_length_write (w : World) (i : Nat) (r : Resource) :
    (writeObj w i r).heap.length = w.heap.length := by
  simp [writeObj]

/-- Reading back an in-range instance after writing it yields the value. -/
theorem readObj_write (w : World) (i : Nat) (r : Resource) (h : i < w.heap.length) :
    readObj (writeObj w i r) i = r := by
  simp [readObj, writeObj, List.getD_eq_getElem?_getD, List.getElem?_set_self, h]

/-- Reading back a freshly allocated list container. -/
theorem readList_alloc (w : World) (l : List Resource) :
    readList (allocList w l).1 (allocList w l).2 = l := by
  simp [readList, allocList, List.getD_eq_getElem?_getD]

/-- List allocation grows the list heap by exactly one slot. -/
theorem listHeap_length_alloc (w : World) (l : List Resource) :
    (allocList w l).1.listHeap.length = w.listHeap.length + 1 := by
  simp [allocList]

/-- Writing a list container does not change the list heap size. -/
theorem listHeap_length_writeList (w : World) (i : Nat) (l : List Resource) :
    (writeList w i l).listHeap.length = w.listHeap.length := by
  simp [writeList]

/-- Reading back an in-range container after writing it yields the value. -/
theorem readList_writeList (w : World) (i : Nat) (l : List Resource)
    (h : i < w.listHeap.length) :
    readList (writeList w i l) i = l := by
  simp [readList, writeList, List.getD_eq_getElem?_getD, List.getElem?_set_self, h]

/-- Heap writes are invisible to the stores. -/
theorem storeOf_writeObj (w : World) (i : Nat) (r : Resource) (c : Nat) :
    storeOf (writeObj w i r) c = storeOf w c := rfl

/-- Allocations are invisible to the stores. -/
theorem storeOf_alloc (w : World) (r : Resource) (c : Nat) :
    storeOf (allocObj w r).1 c = storeOf w c := rfl

/-- SetClient only replaces the default handle; the stores are untouched. -/
theorem storeOf_SetClient (w : World) (c : Option Nat) (d : Nat) :
    storeOf (komega.SetClient c w) d = storeOf w d := rfl

/-- C2: while the store handle is unconfigured (`defaultClient = none`),
every probe-producing operation (Get, List, Update, UpdateStatus, Object,
ObjectList) panics immediately and unconditionally at construction time
with the configuration error, instead of returning a probe that would
defer an operation error. -/
theorem C2_unconfigured_construction_panics
    (w : World) (h : w.defaultClient = none)
    (objId listId : Nat) (nn : NamespacedName) (f : Resource → Resource)
    (opts : ListOpts) :
    komega.Get objId w = .error panicMsg ∧
    komega.List listId opts w = .error panicMsg ∧
    komega.Update nn f w = .error panicMsg ∧
    komega.UpdateStatus nn f w = .error panicMsg ∧
    komega.Object nn w = .error panicMsg ∧
    komega.ObjectList opts w = .error panicMsg := by
  refine ⟨?_, ?_, ?_, ?_, ?_, ?_⟩ <;>
    simp [komega.Get, komega.List, komega.Update, komega.UpdateStatus,
      komega.Object, komega.ObjectList, komega.checkClient, h]

/-- Witness for C2 at the process-start world. -/
theorem C2_unconfigured_construction_panics_witness :
    komega.Get 0 initialWorld = .error panicMsg ∧
    komega.List 0 { nsFilter := none } initialWorld = .error panicMsg ∧
    komega.Update nnTest id initialWorld = .error panicMsg ∧
    komega.UpdateStatus nnTest id initialWorld = .error panicMsg ∧
    komega.Object nnTest initialWorld = .error panicMsg ∧
    komega.ObjectList { nsFilter := none } initialWorld = .error panicMsg :=
  C2_unconfigured_construction_panics initialWorld rfl 0 0 nnTest id { nsFilter := none }

/-- C10: SetClient with a nil client leaves the package unconfigured:
after `SetClient none`, every probe-producing operation panics with the
same configuration error as if SetClient had never been called. -/
theorem C10_setclient_nil_stays_unconfigured
    (w : World) (objId listId : Nat) (nn : NamespacedName)
    (f : Resource → Resource) (opts : ListOpts) :
    komega.Get objId (komega.SetClient none w) = .error panicMsg ∧
    komega.List listId opts (komega.SetClient none w) = .error panicMsg ∧
    komega.Update nn f (komega.SetClient none w) = .error panicMsg ∧
    komega.UpdateStatus nn f (komega.SetClient none w) = .error panicMsg ∧
    komega.Object nn (komega.SetClient none w) = .error panicMsg ∧
    komega.ObjectList opts (komega.SetClient none w) = .error panicMsg := by
  refine ⟨?_, ?_, ?_, ?_, ?_, ?_⟩ <;>
    simp [komega.SetClient, komega.Get, komega.List, komega.Update,
      komega.UpdateStatus, komega.Object, komega.ObjectList, komega.checkClient]

/-- C7: with a store holding a resource named test in namespace default
with replica count 5, the fetch probe for that identity succeeds and
populates the passed instance so that its replica count equals 5 (the
concrete scenario of the package test). -/
theorem C7_fetch_scenario_replicas_five :
    komega.Get 0 (allocObj worldTest (stampedZero nnTest)).1 =
      .ok ((allocObj worldTest (stampedZero nnTest)).1,
           { clientId := 0, objId := 0 }) ∧
    (invokeGetProbe { clientId := 0, objId := 0 }
        (allocObj worldTest (stampedZero nnTest)).1).2 = none ∧
    (readObj (invokeGetProbe { clientId := 0, objId := 0 }
        (allocObj worldTest (stampedZero nnTest)).1).1 0).replicas = 5 := by
  refine ⟨rfl, ?_, ?_⟩ <;> decide

/-- Allocation does not touch the default handle. -/
theorem alloc_defaultClient (w : World) (r : Resource) :
    (allocObj w r).1.defaultClient = w.defaultClient := rfl

/-- List allocation does not touch the default handle. -/
theorem allocList_defaultClient (w : World) (l : List Resource) :
    (allocList w l).1.defaultClient = w.defaultClient := rfl

/-- List allocations are invisible to the stores. -/
theorem storeOf_allocList (w : World) (l : List Resource) (c : Nat) :
    storeOf (allocList w l).1 c = storeOf w c := rfl

/-- Shape of a non-panicking Object-probe invocation: the returned id is
the brand-new slot, and the heap grew by exactly one. -/
theorem invokeObjectProbe_ok_shape (p : ObjectProbe) (w w2 : World) (i : Nat)
    (e : Option StoreError) (h : invokeObjectProbe p w = .ok (w2, i, e)) :
    i = w.heap.length ∧ w2.heap.length = w.heap.length + 1 := by
  simp only [invokeObjectProbe] at h
  split at h
  · exact absurd h (by simp)
  · split at h
    · simp only [Except.ok.injEq, Prod.mk.injEq] at h
      obtain ⟨hw, hi, -⟩ := h
      refine ⟨hi.symm, ?_⟩
      rw [← hw, heap_length_write, heap_length_alloc]
    · simp only [Except.ok.injEq, Prod.mk.injEq] at h
      obtain ⟨hw, hi, -⟩ := h
      refine ⟨hi.symm, ?_⟩
      rw [← hw, heap_length_alloc]

/-- Shape of a non-panicking ObjectList-probe invocation. -/
theorem invokeObjectListProbe_ok_shape (p : ObjectListProbe) (w w2 : World)
    (i : Nat) (e : Option StoreError)
    (h : invokeObjectListProbe p w = .ok (w2, i, e)) :
    i = w.listHeap.length ∧ w2.listHeap.length = w.listHeap.length + 1 := by
  simp only [invokeObjectListProbe] at h
  split at h
  · exact absurd h (by simp)
  · split at h
    · simp only [Except.ok.injEq, Prod.mk.injEq] at h
      obtain ⟨hw, hi, -⟩ := h
      refine ⟨hi.symm, ?_⟩
      rw [← hw, listHeap_length_writeList, listHeap_length_alloc]
    · simp only [Except.ok.injEq, Prod.mk.injEq] at h
      obtain ⟨hw, hi, -⟩ := h
      refine ⟨hi.symm, ?_⟩
      rw [← hw, listHeap_length_alloc]

/-- C4: every invocation of the probe returned by Object allocates a fresh
zero-valued instance, stamps the name and namespace from the identity onto
it, fetches current state into it and returns the (instance, error) pair;
for a missing identity the error is the store error and the returned
instance carries nothing but the stamped identity. -/
theorem C4_object_probe_fresh_stamp_fetch
    (w : World) (p : ObjectProbe) (c : Nat)
    (hc : w.defaultClient = some c) :
    komega.Object p.nn w = .ok (w, p) ∧
    (∀ r, storeGetOp (storeOf w c) p.nn = .ok r →
      invokeObjectProbe p w =
        .ok (writeObj (allocObj w (stampedZero p.nn)).1 w.heap.length r,
             w.heap.length, none)) ∧
    (∀ e, storeGetOp (storeOf w c) p.nn = .error e →
      invokeObjectProbe p w =
        .ok ((allocObj w (stampedZero p.nn)).1, w.heap.length, some e) ∧
      readObj (allocObj w (stampedZero p.nn)).1 w.heap.length = stampedZero p.nn) := by
  have hd : (allocObj w (stampedZero p.nn)).1.defaultClient = some c := hc
  have hs : storeOf (allocObj w (stampedZero p.nn)).1 c = storeOf w c := rfl
  have ha : (allocObj w (stampedZero p.nn)).2 = w.heap.length := rfl
  refine ⟨?_, ?_, ?_⟩
  · simp [komega.Object, komega.checkClient, hc]
  · intro r hr
    simp only [invokeObjectProbe, hd, hs, hr, ha]
  · intro e he
    refine ⟨?_, readObj_alloc w (stampedZero p.nn)⟩
    simp only [invokeObjectProbe, hd, hs, he, ha]

/-- Witness for C4: on the scenario store, the probe for a missing
identity errs with not-found and returns only the stamped identity, and
the probe for the present identity returns its stored state. -/
theorem C4_object_probe_fresh_stamp_fetch_witness :
    invokeObjectProbe { nn := nnMissing } worldTest =
      .ok ((allocObj worldTest (stampedZero nnMissing)).1, 0,
           some (.notFound nnMissing)) ∧
    readObj (allocObj worldTest (stampedZero nnMissing)).1 0 = stampedZero nnMissing ∧
    invokeObjectProbe { nn := nnTest } worldTest =
      .ok (writeObj (allocObj worldTest (stampedZero nnTest)).1 0 resTest, 0, none) := by
  have hmiss := C4_object_probe_fresh_stamp_fetch worldTest { nn := nnMissing } 0 rfl
  have hhit := C4_object_probe_fresh_stamp_fetch worldTest { nn := nnTest } 0 rfl
  exact ⟨(hmiss.2.2 (.notFound nnMissing) rfl).1,
         (hmiss.2.2 (.notFound nnMissing) rfl).2,
         hhit.2.1 resTest rfl⟩

/-- C5: for probes returned by Object and ObjectList, two consecutive
successful invocations return distinct instances by identity (distinct
heap slots), regardless of content: an instance returned by one
invocation is never retained and returned by a later one. -/
theorem C5_object_probes_fresh_instances
    (p : ObjectProbe) (q : ObjectListProbe) (w w1 w2 v1 v2 : World)
    (i1 i2 j1 j2 : Nat)
    (h1 : invokeObjectProbe p w = .ok (w1, i1, none))
    (h2 : invokeObjectProbe p w1 = .ok (w2, i2, none))
    (g1 : invokeObjectListProbe q w = .ok (v1, j1, none))
    (g2 : invokeObjectListProbe q v1 = .ok (v2, j2, none)) :
    i1 ≠ i2 ∧ j1 ≠ j2 := by
  obtain ⟨hi1, hl1⟩ := invokeObjectProbe_ok_shape p w w1 i1 none h1
  obtain ⟨hi2, -⟩ := invokeObjectProbe_ok_shape p w1 w2 i2 none h2
  obtain ⟨hj1, hm1⟩ := invokeObjectListProbe_ok_shape q w v1 j1 none g1
  obtain ⟨hj2, -⟩ := invokeObjectListProbe_ok_shape q v1 v2 j2 none g2
  omega

/-- Witness for C5: on the scenario world both consecutive invocations
succeed and return slots 0 and 1 respectively. -/
theorem C5_object_probes_fresh_instances_witness :
    (0 : Nat) ≠ (1 : Nat) ∧ (0 : Nat) ≠ (1 : Nat) :=
  C5_object_probes_fresh_instances { nn := nnTest } { opts := { nsFilter := none } }
    worldTest objW1 objW2 listV1 listV2 0 1 0 1 rfl rfl rfl rfl

/-- The stores are untouched by a double in-place write of the instance. -/
theorem storeOf_writeObj2 (v : World) (i j : Nat) (r r2 : Resource) (c : Nat) :
    storeOf (writeObj (writeObj v i r) j r2) c = storeOf v c := rfl

/-- Replacing a store leaves the heap alone. -/
theorem heap_setStore (w : World) (c : Nat) (s : Store) :
    (setStore w c s).heap = w.heap := rfl

/-- C1 counterexample: the probe built by Update does NOT fetch into a
fresh instance on each invocation.  Construction allocates instance 0
once; the first and the second invocation both apply the mutator to that
same instance 0 (the application logs name slot 0 both times), and after
two invocations the heap still holds exactly the one instance allocated
at construction — so the second invocation applies the mutator to an
instance retained from the previous invocation, refuting the claim as
stated. -/
theorem C1_update_fresh_instance_counterexample :
    komega.Update nnTest f0 worldTest = .ok (updW0, p0) ∧
    (invokeUpdateProbe p0 updW0).2.2.map Prod.fst = [0] ∧
    (invokeUpdateProbe p0 (invokeUpdateProbe p0 updW0).1).2.2.map Prod.fst = [0] ∧
    (invokeUpdateProbe p0 (invokeUpdateProbe p0 updW0).1).1.heap.length =
      worldTest.heap.length + 1 := by
  exact ⟨rfl, rfl, rfl, rfl⟩

/-- C1 amended: Update (and UpdateStatus) allocates one instance at probe
construction, stamped with the identity; each invocation of the probe
re-fetches the current state for the identity into that single shared
instance, applies the mutator exactly once to the freshly fetched state
(not at all when the fetch fails), writes the result back through the
respective channel, and returns the error of the fetch or of the write
verbatim. -/
theorem C1_amended_update_refetch_shared_instance
    (w : World) (nn : NamespacedName) (f : Resource → Resource) (c : Nat)
    (hc : w.defaultClient = some c) :
    komega.Update nn f w =
      .ok ((allocObj w (stampedZero nn)).1,
           { clientId := c, objId := w.heap.length, nn := nn, f := f }) ∧
    komega.UpdateStatus nn f w =
      .ok ((allocObj w (stampedZero nn)).1,
           { clientId := c, objId := w.heap.length, nn := nn, f := f }) ∧
    (∀ (p : UpdateProbe) (v : World),
      (invokeUpdateProbe p v).2.2 =
        (match storeGetOp (storeOf v p.clientId) p.nn with
         | .ok r => [(p.objId, r)]
         | .error _ => []) ∧
      (invokeUpdateProbe p v).2.1 =
        (match storeGetOp (storeOf v p.clientId) p.nn with
         | .error e => some e
         | .ok r => errOf (storeUpdateOp (storeOf v p.clientId) (p.f r))) ∧
      (invokeUpdateStatusProbe p v).2.2 =
        (match storeGetOp (storeOf v p.clientId) p.nn with
         | .ok r => [(p.objId, r)]
         | .error _ => []) ∧
      (invokeUpdateStatusProbe p v).2.1 =
        (match storeGetOp (storeOf v p.clientId) p.nn with
         | .error e => some e
         | .ok r => errOf (storeUpdateStatusOp (storeOf v p.clientId) (p.f r)))) := by
  refine ⟨?_, ?_, ?_⟩
  · simp [komega.Update, hc, allocObj]
  · simp [komega.UpdateStatus, hc, allocObj]
  · intro p v
    cases hg : storeGetOp (storeOf v p.clientId) p.nn with
    | error e =>
      refine ⟨?_, ?_, ?_, ?_⟩ <;>
        simp [invokeUpdateProbe, invokeUpdateStatusProbe, invokeUpdateCore, hg]
    | ok r =>
      cases hu : storeUpdateOp (storeOf v p.clientId) (p.f r) <;>
        cases hsu : storeUpdateStatusOp (storeOf v p.clientId) (p.f r) <;>
          refine ⟨?_, ?_, ?_, ?_⟩ <;>
            simp [invokeUpdateProbe, invokeUpdateStatusProbe, invokeUpdateCore,
              storeOf_writeObj2, hg, hu, hsu, errOf]

/-- Witness for the amended C1 on the scenario world: the probe instance
is slot 0, one invocation logs exactly one mutator application at slot 0
with the fetched state, and both the fetch and the write succeed. -/
theorem C1_amended_update_refetch_shared_instance_witness :
    komega.Update nnTest f0 worldTest =
      .ok ((allocObj worldTest (stampedZero nnTest)).1,
           { clientId := 0, objId := 0, nn := nnTest, f := f0 }) ∧
    (invokeUpdateProbe p0 updW0).2.2 = [(0, resTest)] ∧
    (invokeUpdateProbe p0 updW0).2.1 = none := by
  have h := C1_amended_update_refetch_shared_instance worldTest nnTest f0 0 rfl
  exact ⟨h.1, (h.2.2 p0 updW0).1, (h.2.2 p0 updW0).2.1⟩

/-- An update-probe invocation whose fetch fails changes nothing and
surfaces the fetch error; the mutator is never applied. -/
theorem invokeUpdateCore_error (op : Store → Resource → Except StoreError Store)
    (p : UpdateProbe) (v : World) (e : StoreError)
    (hg : storeGetOp (storeOf v p.clientId) p.nn = .error e) :
    invokeUpdateCore op p v = (v, some e, []) := by
  simp only [invokeUpdateCore, hg]

/-- An update-probe invocation whose fetch yields `r` applies the mutator
exactly once, to the shared instance holding `r`, surfaces the error of
the write channel verbatim, and leaves the heap equal to the old heap
with only the shared slot overwritten (fetched state, then mutated
state). -/
theorem invokeUpdateCore_ok (op : Store → Resource → Except StoreError Store)
    (p : UpdateProbe) (v : World) (r : Resource)
    (hg : storeGetOp (storeOf v p.clientId) p.nn = .ok r) :
    (invokeUpdateCore op p v).2.2 = [(p.objId, r)] ∧
    (invokeUpdateCore op p v).2.1 = errOf (op (storeOf v p.clientId) (p.f r)) ∧
    (invokeUpdateCore op p v).1.heap = (v.heap.set p.objId r).set p.objId (p.f r) := by
  have hst : storeOf (writeObj (writeObj v p.objId r) p.objId (p.f r)) p.clientId
      = storeOf v p.clientId := rfl
  cases hu : op (storeOf v p.clientId) (p.f r) with
  | error e =>
    refine ⟨?_, ?_, ?_⟩ <;>
      simp only [invokeUpdateCore, hg, hst, hu, errOf] <;> rfl
  | ok s2 =>
    refine ⟨?_, ?_, ?_⟩ <;>
      simp only [invokeUpdateCore, hg, hst, hu, errOf] <;> rfl

/-- Writing the same in-range slot twice and reading it back yields the
last value written. -/
theorem getD_set_set (l : List Resource) (i : Nat) (a b : Resource)
    (h : i < l.length) :
    ((l.set i a).set i b).getD i Resource.zero = b := by
  simp [List.getD_eq_getElem?_getD, List.getElem?_set_self, List.length_set, h]

/-- C9: Update and UpdateStatus allocate exactly one instance, at probe
construction time, stamped with the identity (the heap grows by exactly
that one slot and the probe closes over it); every invocation applies the
mutator to that same shared slot (every logged application names it), no
invocation allocates (the heap size never changes across invocations),
and after an invocation whose fetch succeeded the mutated value is still
sitting in the shared instance, persisting into the next invocation. -/
theorem C9_update_single_shared_instance
    (w : World) (nn : NamespacedName) (f : Resource → Resource) (c : Nat)
    (hc : w.defaultClient = some c) :
    (komega.Update nn f w).map (fun x => x.1.heap) =
      .ok (w.heap ++ [stampedZero nn]) ∧
    (komega.UpdateStatus nn f w).map (fun x => x.1.heap) =
      .ok (w.heap ++ [stampedZero nn]) ∧
    (komega.Update nn f w).map (fun x => x.2.objId) = .ok w.heap.length ∧
    (komega.UpdateStatus nn f w).map (fun x => x.2.objId) = .ok w.heap.length ∧
    (∀ (p : UpdateProbe) (v : World),
      (invokeUpdateProbe p v).1.heap.length = v.heap.length ∧
      (invokeUpdateStatusProbe p v).1.heap.length = v.heap.length ∧
      (∀ x ∈ (invokeUpdateProbe p v).2.2, x.1 = p.objId) ∧
      (∀ x ∈ (invokeUpdateStatusProbe p v).2.2, x.1 = p.objId) ∧
      (∀ r, storeGetOp (storeOf v p.clientId) p.nn = .ok r →
        p.objId < v.heap.length →
        readObj (invokeUpdateProbe p v).1 p.objId = p.f r ∧
        readObj (invokeUpdateStatusProbe p v).1 p.objId = p.f r)) := by
  refine ⟨?_, ?_, ?_, ?_, ?_⟩
  · simp [komega.Update, hc, allocObj, Except.map]
  · simp [komega.UpdateStatus, hc, allocObj, Except.map]
  · simp [komega.Update, hc, allocObj, Except.map]
  · simp [komega.UpdateStatus, hc, allocObj, Except.map]
  · intro p v
    cases hg : storeGetOp (storeOf v p.clientId) p.nn with
    | error e =>
      have hu := invokeUpdateCore_error storeUpdateOp p v e hg
      have hs := invokeUpdateCore_error storeUpdateStatusOp p v e hg
      refine ⟨?_, ?_, ?_, ?_, ?_⟩
      · show (invokeUpdateCore storeUpdateOp p v).1.heap.length = v.heap.length
        rw [hu]
      · show (invokeUpdateCore storeUpdateStatusOp p v).1.heap.length = v.heap.length
        rw [hs]
      · show ∀ x ∈ (invokeUpdateCore storeUpdateOp p v).2.2, x.1 = p.objId
        rw [hu]; intro x hx; exact absurd hx (List.not_mem_nil x)
      · show ∀ x ∈ (invokeUpdateCore storeUpdateStatusOp p v).2.2, x.1 = p.objId
        rw [hs]; intro x hx; exact absurd hx (List.not_mem_nil x)
      · intro r hr
        exact absurd hr (by simp)
    | ok r0 =>
      obtain ⟨hlu, heu, hhu⟩ := invokeUpdateCore_ok storeUpdateOp p v r0 hg
      obtain ⟨hls, hes, hhs⟩ := invokeUpdateCore_ok storeUpdateStatusOp p v r0 hg
      refine ⟨?_, ?_, ?_, ?_, ?_⟩
      · show (invokeUpdateCore storeUpdateOp p v).1.heap.length = v.heap.length
        rw [hhu]; simp [List.length_set]
      · show (invokeUpdateCore storeUpdateStatusOp p v).1.heap.length = v.heap.length
        rw [hhs]; simp [List.length_set]
      · show ∀ x ∈ (invokeUpdateCore storeUpdateOp p v).2.2, x.1 = p.objId
        rw [hlu]; intro x hx; rw [List.mem_singleton] at hx; rw [hx]
      · show ∀ x ∈ (invokeUpdateCore storeUpdateStatusOp p v).2.2, x.1 = p.objId
        rw [hls]; intro x hx; rw [List.mem_singleton] at hx; rw [hx]
      · intro r hr hlt
        injection hr with hr0
        subst hr0
        constructor
        · show readObj (invokeUpdateCore storeUpdateOp p v).1 p.objId = p.f r0
          unfold readObj
          rw [hhu]
          exact getD_set_set v.heap p.objId r0 (p.f r0) hlt
        · show readObj (invokeUpdateCore storeUpdateStatusOp p v).1 p.objId = p.f r0
          unfold readObj
          rw [hhs]
          exact getD_set_set v.heap p.objId r0 (p.f r0) hlt

/-- Witness for C9 on the scenario world: construction stamps slot 0, an
invocation keeps the heap size, logs only slot 0, and leaves the mutated
value in the shared slot. -/
theorem C9_update_single_shared_instance_witness :
    (komega.Update nnTest f0 worldTest).map (fun x => x.1.heap) =
      .ok (worldTest.heap ++ [stampedZero nnTest]) ∧
    (komega.Update nnTest f0 worldTest).map (fun x => x.2.objId) = .ok 0 ∧
    (invokeUpdateProbe p0 updW0).1.heap.length = updW0.heap.length ∧
    (∀ x ∈ (invokeUpdateProbe p0 updW0).2.2, x.1 = p0.objId) ∧
    readObj (invokeUpdateProbe p0 updW0).1 0 = f0 resTest := by
  have h := C9_update_single_shared_instance worldTest nnTest f0 0 rfl
  have h5 := h.2.2.2.2 p0 updW0
  exact ⟨h.1, h.2.2.1, h5.1, h5.2.2.1, (h5.2.2.2.2 resTest rfl (by decide)).1⟩

/-- C3: every probe, each time it is invoked, re-fetches current state
from the store before applying any mutation: the update probes apply the
mutator only to the state fetched in the same invocation (their log is
exactly the one freshly fetched value), and the fetch, list, object and
object-list probes overwrite their instance with the state the store
holds at invocation time. -/
theorem C3_every_invocation_refetches
    (gp : GetProbe) (lp : ListProbe) (up : UpdateProbe)
    (op2 : ObjectProbe) (oq : ObjectListProbe) (w : World)
    (hg : gp.objId < w.heap.length) (hl : lp.listId < w.listHeap.length) :
    (invokeUpdateProbe up w).2.2 =
      (match storeGetOp (storeOf w up.clientId) up.nn with
       | .ok r => [(up.objId, r)]
       | .error _ => []) ∧
    (invokeUpdateStatusProbe up w).2.2 =
      (match storeGetOp (storeOf w up.clientId) up.nn with
       | .ok r => [(up.objId, r)]
       | .error _ => []) ∧
    (∀ r, storeGetOp (storeOf w gp.clientId) (keyOf (readObj w gp.objId)) = .ok r →
      readObj (invokeGetProbe gp w).1 gp.objId = r) ∧
    (∀ items, storeListOp (storeOf w lp.clientId) lp.opts = .ok items →
      readList (invokeListProbe lp w).1 lp.listId = items) ∧
    (∀ c r, w.defaultClient = some c → storeGetOp (storeOf w c) op2.nn = .ok r →
      invokeObjectProbe op2 w =
        .ok (writeObj (allocObj w (stampedZero op2.nn)).1 w.heap.length r,
             w.heap.length, none) ∧
      readObj (writeObj (allocObj w (stampedZero op2.nn)).1 w.heap.length r)
        w.heap.length = r) ∧
    (∀ c items, w.defaultClient = some c →
      storeListOp (storeOf w c) oq.opts = .ok items →
      invokeObjectListProbe oq w =
        .ok (writeList (allocList w []).1 w.listHeap.length items,
             w.listHeap.length, none) ∧
      readList (writeList (allocList w []).1 w.listHeap.length items)
        w.listHeap.length = items) := by
  refine ⟨?_, ?_, ?_, ?_, ?_, ?_⟩
  · cases hgf : storeGetOp (storeOf w up.clientId) up.nn with
    | error e =>
      show (invokeUpdateCore storeUpdateOp up w).2.2 = []
      rw [invokeUpdateCore_error storeUpdateOp up w e hgf]
    | ok r =>
      exact (invokeUpdateCore_ok storeUpdateOp up w r hgf).1
  · cases hgf : storeGetOp (storeOf w up.clientId) up.nn with
    | error e =>
      show (invokeUpdateCore storeUpdateStatusOp up w).2.2 = []
      rw [invokeUpdateCore_error storeUpdateStatusOp up w e hgf]
    | ok r =>
      exact (invokeUpdateCore_ok storeUpdateStatusOp up w r hgf).1
  · intro r hr
    simp only [invokeGetProbe, hr]
    exact readObj_write w gp.objId r hg
  · intro items hi
    simp only [invokeListProbe, hi]
    exact readList_writeList w lp.listId items hl
  · intro c r hdc hr
    have hd : (allocObj w (stampedZero op2.nn)).1.defaultClient = some c := hdc
    have hs : storeOf (allocObj w (stampedZero op2.nn)).1 c = storeOf w c := rfl
    have ha : (allocObj w (stampedZero op2.nn)).2 = w.heap.length := rfl
    refine ⟨?_, ?_⟩
    · simp only [invokeObjectProbe, hd, hs, hr, ha]
    · refine readObj_write _ _ _ ?_
      rw [heap_length_alloc]
      omega
  · intro c items hdc hi
    have hd : (allocList w []).1.defaultClient = some c := hdc
    have hs : storeOf (allocList w []).1 c = storeOf w c := rfl
    have ha : (allocList w []).2 = w.listHeap.length := rfl
    refine ⟨?_, ?_⟩
    · simp only [invokeObjectListProbe, hd, hs, hi, ha]
    · refine readList_writeList _ _ _ ?_
      rw [listHeap_length_alloc]
      omega

/-- Witness for C3 on `worldFull`: one invocation of each probe kind
observes exactly the current store state. -/
theorem C3_every_invocation_refetches_witness :
    (invokeUpdateProbe p0 worldFull).2.2 = [(0, resTest)] ∧
    readObj (invokeGetProbe { clientId := 0, objId := 0 } worldFull).1 0 = resTest ∧
    readList (invokeListProbe
      { clientId := 0, listId := 0, opts := { nsFilter := none } } worldFull).1 0 =
      [resTest] ∧
    invokeObjectProbe { nn := nnTest } worldFull =
      .ok (writeObj (allocObj worldFull (stampedZero nnTest)).1 1 resTest, 1, none) ∧
    invokeObjectListProbe { opts := { nsFilter := none } } worldFull =
      .ok (writeList (allocList worldFull []).1 1 [resTest], 1, none) := by
  have h := C3_every_invocation_refetches { clientId := 0, objId := 0 }
    { clientId := 0, listId := 0, opts := { nsFilter := none } } p0
    { nn := nnTest } { opts := { nsFilter := none } } worldFull
    (by decide) (by decide)
  exact ⟨h.1, h.2.2.1 resTest rfl, h.2.2.2.1 [resTest] rfl,
    (h.2.2.2.2.1 0 resTest rfl rfl).1,
    (h.2.2.2.2.2 0 [resTest] rfl rfl).1⟩

/-- C6: every probe returns the error produced by the underlying store
operation verbatim: the fetch and list probes surface exactly the store
operation error, the update probes surface exactly the fetch error or,
when the fetch succeeded, exactly the write-channel error, and the object
and object-list probes surface exactly the fetch/list error; no error is
swallowed, wrapped or translated. -/
theorem C6_errors_verbatim
    (gp : GetProbe) (lp : ListProbe) (up : UpdateProbe)
    (op2 : ObjectProbe) (oq : ObjectListProbe) (w : World) :
    (invokeGetProbe gp w).2 =
      errOf (storeGetOp (storeOf w gp.clientId) (keyOf (readObj w gp.objId))) ∧
    (invokeListProbe lp w).2 =
      errOf (storeListOp (storeOf w lp.clientId) lp.opts) ∧
    (invokeUpdateProbe up w).2.1 =
      (match storeGetOp (storeOf w up.clientId) up.nn with
       | .error e => some e
       | .ok r => errOf (storeUpdateOp (storeOf w up.clientId) (up.f r))) ∧
    (invokeUpdateStatusProbe up w).2.1 =
      (match storeGetOp (storeOf w up.clientId) up.nn with
       | .error e => some e
       | .ok r => errOf (storeUpdateStatusOp (storeOf w up.clientId) (up.f r))) ∧
    (∀ c, w.defaultClient = some c →
      probeErr (invokeObjectProbe op2 w) =
        errOf (storeGetOp (storeOf w c) op2.nn) ∧
      probeErr (invokeObjectListProbe oq w) =
        errOf (storeListOp (storeOf w c) oq.opts)) := by
  refine ⟨?_, ?_, ?_, ?_, ?_⟩
  · cases hr : storeGetOp (storeOf w gp.clientId) (keyOf (readObj w gp.objId)) <;>
      simp only [invokeGetProbe, hr, errOf]
  · cases hi : storeListOp (storeOf w lp.clientId) lp.opts <;>
      simp only [invokeListProbe, hi, errOf]
  · cases hgf : storeGetOp (storeOf w up.clientId) up.nn with
    | error e =>
      show (invokeUpdateCore storeUpdateOp up w).2.1 = some e
      rw [invokeUpdateCore_error storeUpdateOp up w e hgf]
    | ok r =>
      exact (invokeUpdateCore_ok storeUpdateOp up w r hgf).2.1
  · cases hgf : storeGetOp (storeOf w up.clientId) up.nn with
    | error e =>
      show (invokeUpdateCore storeUpdateStatusOp up w).2.1 = some e
      rw [invokeUpdateCore_error storeUpdateStatusOp up w e hgf]
    | ok r =>
      exact (invokeUpdateCore_ok storeUpdateStatusOp up w r hgf).2.1
  · intro c hdc
    have hd : (allocObj w (stampedZero op2.nn)).1.defaultClient = some c := hdc
    have hs : storeOf (allocObj w (stampedZero op2.nn)).1 c = storeOf w c := rfl
    have hld : (allocList w []).1.defaultClient = some c := hdc
    have hls : storeOf (allocList w []).1 c = storeOf w c := rfl
    refine ⟨?_, ?_⟩
    · cases hr : storeGetOp (storeOf w c) op2.nn <;>
        simp only [invokeObjectProbe, hd, hs, hr, probeErr, errOf]
    · cases hi : storeListOp (storeOf w c) oq.opts <;>
        simp only [invokeObjectListProbe, hld, hls, hi, probeErr, errOf]

/-- Witness for C6: every injected store error surfaces verbatim through
the corresponding probe. -/
theorem C6_errors_verbatim_witness :
    (invokeGetProbe { clientId := 0, objId := 0 } worldBoom).2 =
      some (.other "boom-get") ∧
    (invokeListProbe { clientId := 0, listId := 0, opts := { nsFilter := none } }
      worldBoom).2 = some (.other "boom-list") ∧
    (invokeUpdateProbe p0 worldBoom2).2.1 = some (.other "boom-upd") ∧
    (invokeUpdateStatusProbe p0 worldBoom2).2.1 = some (.other "boom-status") ∧
    probeErr (invokeObjectProbe { nn := nnTest } worldBoom) =
      some (.other "boom-get") ∧
    probeErr (invokeObjectListProbe { opts := { nsFilter := none } } worldBoom) =
      some (.other "boom-list") := by
  have h1 := C6_errors_verbatim { clientId := 0, objId := 0 }
    { clientId := 0, listId := 0, opts := { nsFilter := none } } p0
    { nn := nnTest } { opts := { nsFilter := none } } worldBoom
  have h2 := C6_errors_verbatim { clientId := 0, objId := 0 }
    { clientId := 0, listId := 0, opts := { nsFilter := none } } p0
    { nn := nnTest } { opts := { nsFilter := none } } worldBoom2
  exact ⟨h1.1, h1.2.1, h2.2.2.1, h2.2.2.2.1,
    (h1.2.2.2.2 0 rfl).1, (h1.2.2.2.2 0 rfl).2⟩

/-- SetClient leaves the heap contents alone. -/
theorem readObj_SetClient (c : Option Nat) (w : World) (i : Nat) :
    readObj (komega.SetClient c w) i = readObj w i := rfl

/-- C8: Get and List bind the store handle at probe construction time
(the probe records the client installed when it was built, and a later
SetClient leaves an already-built probe invocation unchanged apart from
the handle field itself), whereas Object and ObjectList read the
process-wide handle at each invocation (their outcome is governed by the
client installed at invocation time). -/
theorem C8_construction_binds_get_invocation_reads_object
    (w : World) (objId listId c c2 : Nat) (opts : ListOpts)
    (gp : GetProbe) (lp : ListProbe) (op2 : ObjectProbe) (oq : ObjectListProbe) :
    komega.Get objId (komega.SetClient (some c) w) =
      .ok (komega.SetClient (some c) w, { clientId := c, objId := objId }) ∧
    komega.List listId opts (komega.SetClient (some c) w) =
      .ok (komega.SetClient (some c) w,
           { clientId := c, listId := listId, opts := opts }) ∧
    invokeGetProbe gp (komega.SetClient (some c2) w) =
      (komega.SetClient (some c2) (invokeGetProbe gp w).1,
       (invokeGetProbe gp w).2) ∧
    invokeListProbe lp (komega.SetClient (some c2) w) =
      (komega.SetClient (some c2) (invokeListProbe lp w).1,
       (invokeListProbe lp w).2) ∧
    probeErr (invokeObjectProbe op2 (komega.SetClient (some c2) w)) =
      errOf (storeGetOp (storeOf w c2) op2.nn) ∧
    probeErr (invokeObjectListProbe oq (komega.SetClient (some c2) w)) =
      errOf (storeListOp (storeOf w c2) oq.opts) := by
  refine ⟨?_, ?_, ?_, ?_, ?_, ?_⟩
  · simp [komega.Get, komega.SetClient]
  · simp [komega.List, komega.SetClient]
  · cases hr : storeGetOp (storeOf w gp.clientId) (keyOf (readObj w gp.objId)) <;>
      simp only [invokeGetProbe, storeOf_SetClient, readObj_SetClient, hr] <;> rfl
  · cases hi : storeListOp (storeOf w lp.clientId) lp.opts <;>
      simp only [invokeListProbe, storeOf_SetClient, hi] <;> rfl
  · have hd : (allocObj (komega.SetClient (some c2) w)
        (stampedZero op2.nn)).1.defaultClient = some c2 := rfl
    have hs : storeOf (allocObj (komega.SetClient (some c2) w)
        (stampedZero op2.nn)).1 c2 = storeOf w c2 := rfl
    cases hr : storeGetOp (storeOf w c2) op2.nn <;>
      simp only [invokeObjectProbe, hd, hs, hr, probeErr, errOf]
  · have hd : (allocList (komega.SetClient (some c2) w) []).1.defaultClient =
        some c2 := rfl
    have hs : storeOf (allocList (komega.SetClient (some c2) w) []).1 c2 =
        storeOf w c2 := rfl
    cases hi : storeListOp (storeOf w c2) oq.opts <;>
      simp only [invokeObjectListProbe, hd, hs, hi, probeErr, errOf]

